import Mathlib

/-!
Verification of the pg-tikv integration-test harness
(`scripts/integration_test.py`, `tests/34_concurrent_transactions.py`).

The Python code is shallowly embedded: file contents, command outputs and
exit codes become explicit parameters; string operations (`in`, `strip`,
`lower`, `split("\n")`) are re-implemented over `List Char` so that every
definition is executable and decidable.
-/

namespace PgTikv

/-! ## Python string primitives -/

/-- `leadsWith needle hay`: `needle` is a leading block of `hay`
(Python `hay.startswith(needle)` over char lists). -/
def leadsWith : List Char → List Char → Bool
  | [], _ => true
  | _ :: _, [] => false
  | n :: ns, h :: hs => n == h && leadsWith ns hs

/-- `hasSubAux needle hay`: `needle` occurs contiguously in `hay`. -/
def hasSubAux (needle : List Char) : List Char → Bool
  | [] => needle.isEmpty
  | c :: rest => leadsWith needle (c :: rest) || hasSubAux needle rest

/-- Python `pat in hay` (substring containment). -/
def containsStr (hay pat : String) : Bool :=
  hasSubAux pat.data hay.data

/-- Python `s.strip()`: drop surrounding whitespace. -/
def pyStrip (s : String) : String :=
  ⟨(((s.data.dropWhile Char.isWhitespace).reverse).dropWhile Char.isWhitespace).reverse⟩

/-- Python `s.lower()` (ASCII case folding, as used on psql output). -/
def pyLower (s : String) : String :=
  ⟨s.data.map Char.toLower⟩

/-- Python `s.split("\n")` on char lists. -/
def splitNlChars : List Char → List (List Char)
  | [] => [[]]
  | c :: rest =>
    if c = '\n' then [] :: splitNlChars rest
    else
      match splitNlChars rest with
      | [] => [[c]]
      | h :: t => (c :: h) :: t

/-- Python `s.split("\n")`. -/
def pySplitNl (s : String) : List String :=
  (splitNlChars s.data).map (fun l => ⟨l⟩)

/-! ## Data model (`integration_test.py`) -/

/-- `class TestResult(Enum)`. -/
inductive TestResult where
  | PASSED
  | FAILED
  | SKIPPED
  | ERROR
deriving DecidableEq, Repr

/-- `class SetupMode(Enum)`: docker, tiup, none (`--no-setup`). -/
inductive SetupMode where
  | docker
  | tiup
  | NONE
deriving DecidableEq, Repr

/-- `error_patterns = ["ERROR:", "FATAL:", "error:", "fatal:"]`
(`run_sql_test_file`). -/
def error_patterns : List String := ["ERROR:", "FATAL:", "error:", "fatal:"]

/-- A discovered test unit, resolved to the data the classifier consumes:
presence/contents of the optional companion files and the observed
outputs of the three execution steps.
`setupOutput = some s`: a `_setup.sql` file exists and running it produced
output `s`; `loadRC = some rc`: a `_load.py` script exists and exited with
code `rc`; `output` is the captured combined output of the primary script;
`expected` / `errorsFile` are the contents of the `.expected` / `.errors`
artifacts when they exist. -/
structure TestUnit where
  setupOutput : Option String
  loadRC : Option Int
  output : String
  expected : Option String
  errorsFile : Option String
deriving Repr

/-- The observable steps of `run_sql_test_file`, in execution order. -/
inductive Step where
  | setup
  | load
  | primary
deriving DecidableEq, Repr

/-- Outcome of classifying one unit: the returned `TestResult`, the
`details` string passed to `log_test`, and the trace of steps that ran. -/
structure ClassifyResult where
  result : TestResult
  detail : String
  steps : List Step
deriving Repr

/-- `has_error = any(pattern in output for pattern in error_patterns)`. -/
def hasError (output : String) : Bool :=
  error_patterns.any (fun p => containsStr output p)

/-- Allowed error entries: `[line.strip() for line in
errors_file.read_text().strip().split("\n") if line.strip()]`. -/
def allowedEntries (ef : String) : List String :=
  ((pySplitNl (pyStrip ef)).map pyStrip).filter (fun s => s ≠ "")

/-- Error lines of the output: `[line for line in output.split("\n") if
any(p in line for p in error_patterns)]`. -/
def errorLines (output : String) : List String :=
  (pySplitNl output).filter (fun line => error_patterns.any (fun p => containsStr line p))

/-- Unmatched error lines: those containing no allowed entry as a
substring (`if not any(exp in actual for exp in expected_errors)`). -/
def unexpectedErrors (output : String) (ef : String) : List String :=
  (errorLines output).filter
    (fun a => !((allowedEntries ef).any (fun e => containsStr a e)))

/-- Steps 3-7 of `run_sql_test_file`: the primary script has run and its
output is classified (expected-file comparison, else error scan). -/
def classifyOutput (u : TestUnit) (steps : List Step) : ClassifyResult :=
  let output := u.output
  let has_error := hasError output
  match u.expected with
  | some expected =>
    if pyStrip output = pyStrip expected then
      ⟨TestResult.PASSED, "", steps⟩
    else
      ⟨TestResult.FAILED, "output differs from expected", steps⟩
  | none =>
    if has_error then
      match u.errorsFile with
      | some ef =>
        if unexpectedErrors output ef ≠ [] then
          ⟨TestResult.FAILED, "unexpected SQL errors", steps⟩
        else
          ⟨TestResult.PASSED, "all errors were expected", steps⟩
      | none => ⟨TestResult.FAILED, "SQL errors detected", steps⟩
    else
      ⟨TestResult.PASSED, "no .expected file, checked for errors only", steps⟩

/-- Step 2 of `run_sql_test_file`: the load script, when present, must exit
with code 0, else `Failed("load script failed")`. -/
def afterSetupStep (u : TestUnit) (steps : List Step) : ClassifyResult :=
  match u.loadRC with
  | some rc =>
    if rc ≠ 0 then ⟨TestResult.FAILED, "load script failed", steps ++ [Step.load]⟩
    else classifyOutput u (steps ++ [Step.load, Step.primary])
  | none => classifyOutput u (steps ++ [Step.primary])

/-- `run_sql_test_file`: the golden-test classifier. The setup script, when
present, fails the unit if its output contains `"ERROR:"` or `"FATAL:"`
(the two case-sensitive markers checked at this step in the source). -/
def run_sql_test_file (u : TestUnit) : ClassifyResult :=
  match u.setupOutput with
  | some so =>
    if containsStr so "ERROR:" || containsStr so "FATAL:" then
      ⟨TestResult.FAILED, "setup failed", [Step.setup]⟩
    else afterSetupStep u [Step.setup]
  | none => afterSetupStep u []

/-! ## Retrying command client (`run_sql`, `check_cluster_health`) -/

/-- Tracked subprocess handle: `none` = never spawned, `some true` =
spawned and still running (`poll() is None`), `some false` = spawned and
exited. -/
abbrev ProcHandle := Option Bool

/-- A spawned process that has exited (`proc and proc.poll() is not None`). -/
def procDead : ProcHandle → Bool
  | some false => true
  | _ => false

/-- Global `ProcessManager` state: the two tracked subprocess handles. -/
structure ProcessManager where
  playground_proc : ProcHandle
  pgtikv_proc : ProcHandle
deriving DecidableEq, Repr

/-- `check_cluster_health`: in tiup mode, unhealthy when either tracked
process has exited; in every other mode it reports healthy. -/
def check_cluster_health (mode : SetupMode) (pm : ProcessManager) : Bool :=
  match mode with
  | SetupMode.tiup => !(procDead pm.playground_proc) && !(procDead pm.pgtikv_proc)
  | _ => true

/-- Observable events of one `run_sql` call. -/
inductive Event where
  | health (ok : Bool)
  | attempt (i : Nat)
  | backoff (secs : Nat)
deriving DecidableEq, Repr

/-- Transient classification: retry when
`"Failed to connect to TiKV" in output or "connection refused" in
output.lower()`. -/
def isTransient (out : String) : Bool :=
  containsStr out "Failed to connect to TiKV" || containsStr (pyLower out) "connection refused"

/-- Result of one `run_sql` call: returned output, returned exit code, and
the trace of health checks, psql attempts and backoff sleeps. -/
structure SqlResult where
  output : String
  code : Int
  trace : List Event
deriving Repr

/-- The health-check events emitted before one attempt: the check is
short-circuited away entirely when `--no-setup` is in effect
(`config.setup_mode != SetupMode.NONE and not check_cluster_health()`). -/
def healthEvts (mode : SetupMode) (health : Nat → Bool) (i : Nat) : List Event :=
  if mode = SetupMode.NONE then [] else [Event.health (health i)]

/-- The `for attempt in range(retries + 1)` loop of `run_sql`.
The first argument is the number of retries still available, `i` the
current attempt index, `health i` the value `check_cluster_health()` would
return before attempt `i`, and `att i` the `(stdout+stderr, returncode)`
psql would produce on attempt `i`. When the budget is exhausted on a
transient output the function falls through the loop and returns
`(output, 1)`. -/
def run_sqlLoop (mode : SetupMode) (health : Nat → Bool) (att : Nat → String × Int) :
    Nat → Nat → SqlResult
  | 0, i =>
    let hEvts := healthEvts mode health i
    if mode ≠ SetupMode.NONE ∧ health i = false then
      ⟨"ERROR: Cluster unhealthy", 1, hEvts⟩
    else
      let out := (att i).1
      if isTransient out = false then
        ⟨out, (att i).2, hEvts ++ [Event.attempt i]⟩
      else
        ⟨out, 1, hEvts ++ [Event.attempt i]⟩
  | r + 1, i =>
    let hEvts := healthEvts mode health i
    if mode ≠ SetupMode.NONE ∧ health i = false then
      ⟨"ERROR: Cluster unhealthy", 1, hEvts⟩
    else
      let out := (att i).1
      if isTransient out = false then
        ⟨out, (att i).2, hEvts ++ [Event.attempt i]⟩
      else
        let rest := run_sqlLoop mode health att r (i + 1)
        ⟨rest.output, rest.code, hEvts ++ [Event.attempt i, Event.backoff 2] ++ rest.trace⟩

/-- `retries=2` default of `run_sql`. -/
def defaultRetries : Nat := 2

/-- `run_sql(sql, retries)`: run the loop starting at attempt 0 with the
full retry budget. -/
def run_sql (mode : SetupMode) (health : Nat → Bool) (att : Nat → String × Int)
    (retries : Nat) : SqlResult :=
  run_sqlLoop mode health att retries 0

/-- Every `attempt` event is immediately preceded by a `health true`
event (scanning the trace left to right with the previous event). -/
def healthBeforeAttempts : Option Event → List Event → Bool
  | _, [] => true
  | prev, e :: rest =>
    (match e with
     | Event.attempt _ =>
       match prev with
       | some (Event.health true) => true
       | _ => false
     | _ => true) && healthBeforeAttempts (some e) rest

/-! ## Teardown (`cleanup`, `cleanup_tiup`, `cleanup_docker`) -/

/-- Externally visible teardown actions. -/
inductive CleanupAct where
  | terminate (name : String)
  | kill (name : String)
  | pkill (pat : String)
  | dockerDown
deriving DecidableEq, Repr

/-- `terminate` / `kill` act on a tracked handle; `pkill` / `dockerDown`
are pattern- or compose-based, not handle terminations. -/
def isHandleTermination : CleanupAct → Bool
  | CleanupAct.terminate _ => true
  | CleanupAct.kill _ => true
  | _ => false

/-- Stop one tracked handle as `cleanup_tiup` does: only a handle that is
spawned and still running is terminated (escalating to `kill` when the
5-second graceful wait times out, modelled by `graceful = false`);
afterwards the handle is no longer running. -/
def stopProc (name : String) (p : ProcHandle) (graceful : Bool) :
    ProcHandle × List CleanupAct :=
  match p with
  | some true =>
    (some false,
      if graceful then [CleanupAct.terminate name]
      else [CleanupAct.terminate name, CleanupAct.kill name])
  | other => (other, [])

/-- `cleanup_tiup`: stop pg-tikv, then the playground, then sweep by
pattern. `g1`/`g2` say whether the graceful wait succeeded for each. -/
def cleanup_tiup (pm : ProcessManager) (g1 g2 : Bool) :
    ProcessManager × List CleanupAct :=
  let pg := stopProc "pg-tikv" pm.pgtikv_proc g1
  let pl := stopProc "tiup playground" pm.playground_proc g2
  (⟨pl.1, pg.1⟩,
    pg.2 ++ pl.2 ++
      [CleanupAct.pkill "tiup playground", CleanupAct.pkill "tikv-server",
       CleanupAct.pkill "pd-server"])

/-- `cleanup`: dispatch on setup mode; `--no-cleanup` skips everything,
docker mode runs `docker compose down`, NONE mode does nothing. -/
def cleanup (mode : SetupMode) (noCleanup : Bool) (pm : ProcessManager) (g1 g2 : Bool) :
    ProcessManager × List CleanupAct :=
  if noCleanup then (pm, [])
  else
    match mode with
    | SetupMode.docker => (pm, [CleanupAct.dockerDown])
    | SetupMode.tiup => cleanup_tiup pm g1 g2
    | SetupMode.NONE => (pm, [])

/-- No tracked process is still running. -/
def noTrackedRunning (pm : ProcessManager) : Prop :=
  pm.playground_proc ≠ some true ∧ pm.pgtikv_proc ≠ some true

instance (pm : ProcessManager) : Decidable (noTrackedRunning pm) := by
  unfold noTrackedRunning
  infer_instance

/-! ## Run statistics and orchestration -/

/-- `TestStats`. -/
structure TestStats where
  passed : Nat
  failed : Nat
  skipped : Nat
  errors : Nat
deriving DecidableEq, Repr

/-- `TestStats.total`. -/
def TestStats.total (s : TestStats) : Nat :=
  s.passed + s.failed + s.skipped + s.errors

/-- `TestStats.add`. -/
def TestStats.add (s : TestStats) (r : TestResult) : TestStats :=
  match r with
  | TestResult.PASSED => ⟨s.passed + 1, s.failed, s.skipped, s.errors⟩
  | TestResult.FAILED => ⟨s.passed, s.failed + 1, s.skipped, s.errors⟩
  | TestResult.SKIPPED => ⟨s.passed, s.failed, s.skipped + 1, s.errors⟩
  | TestResult.ERROR => ⟨s.passed, s.failed, s.skipped, s.errors + 1⟩

/-- The zero-initialised `TestStats()`. -/
def initialStats : TestStats := ⟨0, 0, 0, 0⟩

/-- The per-file loop of `run_external_tests`: classify each unit, add its
result, and honor `--stop-on-error` on FAILED/ERROR. -/
def runExternalLoop (stopOnError : Bool) (stats : TestStats) :
    List TestUnit → TestStats
  | [] => stats
  | u :: rest =>
    let r := (run_sql_test_file u).result
    let stats1 := stats.add r
    if stopOnError ∧ (r = TestResult.FAILED ∨ r = TestResult.ERROR) then stats1
    else runExternalLoop stopOnError stats1 rest

/-- `run_external_tests` statistics over the discovered units. -/
def run_external_tests (stopOnError : Bool) (units : List TestUnit) : TestStats :=
  runExternalLoop stopOnError initialStats units

/-- What a built-in `test_func()` call did: returned truthy, returned
falsy, or raised. -/
inductive FuncOutcome where
  | ok
  | notOk
  | exn
deriving DecidableEq, Repr

/-- `TestRunner.run_test`: a truthy return increments `passed` and
returns True; a falsy return or an exception increments `failed` and
returns False. -/
def TestRunner.run_test (s : TestStats) (o : FuncOutcome) : TestStats × Bool :=
  match o with
  | FuncOutcome.ok => (⟨s.passed + 1, s.failed, s.skipped, s.errors⟩, true)
  | _ => (⟨s.passed, s.failed + 1, s.skipped, s.errors⟩, false)

/-- The loop of `run_builtin_tests` over the test functions, honoring
`--stop-on-error`. -/
def runBuiltinLoop (stopOnError : Bool) (s : TestStats) :
    List FuncOutcome → TestStats
  | [] => s
  | o :: rest =>
    let step := TestRunner.run_test s o
    if stopOnError ∧ step.2 = false then step.1
    else runBuiltinLoop stopOnError step.1 rest

/-- `run_builtin_tests` statistics. -/
def run_builtin_tests (stopOnError : Bool) (outcomes : List FuncOutcome) : TestStats :=
  runBuiltinLoop stopOnError initialStats outcomes

/-- The exit status chosen at the end of `main`:
`0` iff `stats.failed == 0 and stats.errors == 0`. -/
def mainExit (s : TestStats) : Nat :=
  if s.failed = 0 ∧ s.errors = 0 then 0 else 1

/-! ## Concurrency property suite (`tests/34_concurrent_transactions.py`) -/

/-- The inventory-reservation scenario, as configured in
`test_concurrent_inventory_reservation`: seed, per-reservation amount,
number of submitted reservations, pool size, the reservation script, and
the assertion applied to the final remaining quantity. -/
structure InventoryScenario where
  initialQuantity : Int
  reservationAmount : Int
  numReservations : Nat
  maxWorkers : Nat
  reserveScript : String
  check : Int → Bool

/-- `test_concurrent_inventory_reservation`: inventory seeded at 100, ten
pool workers each reserving 15 inside one transaction guarded by
`SELECT ... FOR UPDATE`; the final assertion is `remaining >= 0`. -/
def test_concurrent_inventory_reservation : InventoryScenario :=
  ⟨100, 15, 10, 10,
    "BEGIN; SELECT quantity FROM concurrent_inventory WHERE product_id = 1 FOR UPDATE; UPDATE concurrent_inventory SET quantity = quantity - 15 WHERE product_id = 1 AND quantity >= 15; COMMIT;",
    fun remaining => decide (remaining ≥ 0)⟩

/-- A counter-increment scenario: seed value, number of sequential
increment transactions, the increment script, and the assertion applied to
the final counter value. -/
structure CounterScenario where
  seedValue : Int
  numIncrements : Nat
  incrementScript : String
  check : Int → Bool

/-- `test_sequential_counter_increment`: counter seeded at 0, ten
sequential increment transactions (plain `UPDATE`, no `FOR UPDATE`),
asserting the final value is exactly 10. -/
def test_sequential_counter_increment : CounterScenario :=
  ⟨0, 10,
    "BEGIN; UPDATE concurrent_counter SET value = value + 1 WHERE id = 1; COMMIT;",
    fun v => decide (v = 10)⟩

/-- `test_for_update_locking`: counter seeded at 0, five increment
transactions each taking an explicit row lock via
`SELECT ... FOR UPDATE`, asserting the final value is exactly 5. -/
def test_for_update_locking : CounterScenario :=
  ⟨0, 5,
    "BEGIN; SELECT value FROM concurrent_counter WHERE id = 1 FOR UPDATE; UPDATE concurrent_counter SET value = value + 1 WHERE id = 1; COMMIT;",
    fun v => decide (v = 5)⟩

/-! ## Helper lemmas -/

/-- When the setup marker check and the load script both pass (or are
absent), `run_sql_test_file` reduces to `classifyOutput` for some step
prefix. -/
theorem reaches_classify (u : TestUnit)
    (hs : ∀ so, u.setupOutput = some so →
      (containsStr so "ERROR:" || containsStr so "FATAL:") = false)
    (hl : ∀ rc, u.loadRC = some rc → rc = 0) :
    ∃ steps, run_sql_test_file u = classifyOutput u steps := by
  unfold run_sql_test_file afterSetupStep
  rcases hso : u.setupOutput with _ | so
  · rcases hlo : u.loadRC with _ | rc
    · exact ⟨_, rfl⟩
    · have h0 := hl rc hlo
      subst h0
      exact ⟨[Step.load, Step.primary], by simp⟩
  · have hm := hs so hso
    rcases hlo : u.loadRC with _ | rc
    · exact ⟨[Step.setup, Step.primary], by simp [hm]⟩
    · have h0 := hl rc hlo
      subst h0
      exact ⟨[Step.setup, Step.load, Step.primary], by simp [hm]⟩

/-- With an `.expected` artifact present, `classifyOutput` is exactly the
trimmed comparison, independent of error markers. -/
theorem classifyOutput_expected (u : TestUnit) (steps : List Step) (e : String)
    (he : u.expected = some e) :
    classifyOutput u steps =
      if pyStrip u.output = pyStrip e then ⟨TestResult.PASSED, "", steps⟩
      else ⟨TestResult.FAILED, "output differs from expected", steps⟩ := by
  unfold classifyOutput
  rw [he]

/-- The unmatched-error-line list is empty exactly when every error line
contains some allowed entry. -/
theorem unexpectedErrors_eq_nil_iff (out ef : String) :
    unexpectedErrors out ef = [] ↔
      ∀ line ∈ errorLines out, ∃ entry ∈ allowedEntries ef, containsStr line entry = true := by
  unfold unexpectedErrors
  rw [List.filter_eq_nil_iff]
  simp [List.any_eq_true]

/-- The classifier returns only PASSED or FAILED. -/
theorem classify_pass_or_fail (u : TestUnit) :
    (run_sql_test_file u).result = TestResult.PASSED ∨
    (run_sql_test_file u).result = TestResult.FAILED := by
  unfold run_sql_test_file afterSetupStep classifyOutput
  rcases u.setupOutput with _ | so <;>
    rcases u.loadRC with _ | rc <;>
      rcases u.expected with _ | e <;>
        rcases u.errorsFile with _ | ef <;>
          dsimp <;> split_ifs <;> simp

/-- The external-test loop never touches the skipped or errors counters. -/
theorem runExternalLoop_skipped_errors (stop : Bool) :
    ∀ (units : List TestUnit) (s : TestStats),
      (runExternalLoop stop s units).skipped = s.skipped ∧
      (runExternalLoop stop s units).errors = s.errors := by
  intro units
  induction units with
  | nil => intro s; exact ⟨rfl, rfl⟩
  | cons u rest ih =>
    intro s
    unfold runExternalLoop
    rcases classify_pass_or_fail u with h | h <;> rw [h] <;> dsimp [TestStats.add] <;>
      split_ifs <;> first | exact ⟨rfl, rfl⟩ | exact ih _

/-- The built-in-test loop never touches the skipped or errors counters. -/
theorem runBuiltinLoop_skipped_errors (stop : Bool) :
    ∀ (os : List FuncOutcome) (s : TestStats),
      (runBuiltinLoop stop s os).skipped = s.skipped ∧
      (runBuiltinLoop stop s os).errors = s.errors := by
  intro os
  induction os with
  | nil => intro s; exact ⟨rfl, rfl⟩
  | cons o rest ih =>
    intro s
    unfold runBuiltinLoop
    rcases o <;> dsimp [TestRunner.run_test] <;> split_ifs <;>
      first | exact ⟨rfl, rfl⟩ | exact ih _

/-- In any managed setup mode, every psql attempt in a `run_sql` trace is
immediately preceded by a successful health check. -/
theorem run_sqlLoop_healthBefore (mode : SetupMode) (health : Nat → Bool)
    (att : Nat → String × Int) (hm : mode ≠ SetupMode.NONE) :
    ∀ (remaining i : Nat) (prev : Option Event),
      healthBeforeAttempts prev (run_sqlLoop mode health att remaining i).trace = true := by
  intro remaining
  induction remaining with
  | zero =>
    intro i prev
    unfold run_sqlLoop
    by_cases hhi : health i = false
    · rw [if_pos ⟨hm, hhi⟩]
      simp [healthEvts, hm, healthBeforeAttempts]
    · rw [if_neg (by tauto)]
      have hhi2 : health i = true := by revert hhi; cases health i <;> simp
      dsimp
      split_ifs <;> simp [healthEvts, hm, hhi2, healthBeforeAttempts]
  | succ r ih =>
    intro i prev
    unfold run_sqlLoop
    by_cases hhi : health i = false
    · rw [if_pos ⟨hm, hhi⟩]
      simp [healthEvts, hm, healthBeforeAttempts]
    · rw [if_neg (by tauto)]
      have hhi2 : health i = true := by revert hhi; cases health i <;> simp
      dsimp
      split_ifs with htr
      · simp [healthEvts, hm, hhi2, healthBeforeAttempts]
      · simp only [healthEvts, if_neg hm]
        simp [healthBeforeAttempts, hhi2]
        exact ih (i + 1) (some (Event.backoff 2))

/-- If any health check in a `run_sql` trace reported unhealthy, the call
returned the Cluster-Unhealthy error and the failing check is the last
event of the trace: nothing was attempted after it. -/
theorem run_sqlLoop_unhealthy_stops (mode : SetupMode) (health : Nat → Bool)
    (att : Nat → String × Int) :
    ∀ (remaining i : Nat),
      Event.health false ∈ (run_sqlLoop mode health att remaining i).trace →
      (run_sqlLoop mode health att remaining i).output = "ERROR: Cluster unhealthy" ∧
      (run_sqlLoop mode health att remaining i).code = 1 ∧
      (run_sqlLoop mode health att remaining i).trace.getLast? = some (Event.health false) := by
  intro remaining
  induction remaining with
  | zero =>
    intro i hmem
    revert hmem
    unfold run_sqlLoop
    by_cases hg : mode ≠ SetupMode.NONE ∧ health i = false
    · rw [if_pos hg]
      intro _
      simp [healthEvts, hg.1, hg.2]
    · rw [if_neg hg]
      dsimp
      split_ifs <;> intro hmem <;>
        (exfalso
         rcases Decidable.em (mode = SetupMode.NONE) with hN | hN
         · simp [healthEvts, hN] at hmem
         · have hhi : health i = true := by
             rcases Decidable.em (health i = false) with hf | hf
             · exact absurd ⟨hN, hf⟩ hg
             · revert hf; cases health i <;> simp
           simp [healthEvts, hN, hhi] at hmem)
  | succ r ih =>
    intro i hmem
    revert hmem
    unfold run_sqlLoop
    by_cases hg : mode ≠ SetupMode.NONE ∧ health i = false
    · rw [if_pos hg]
      intro _
      simp [healthEvts, hg.1, hg.2]
    · rw [if_neg hg]
      have hpre : ∀ e, e ∈ healthEvts mode health i → e ≠ Event.health false := by
        intro e he
        rcases Decidable.em (mode = SetupMode.NONE) with hN | hN
        · simp [healthEvts, hN] at he
        · have hhi : health i = true := by
            rcases Decidable.em (health i = false) with hf | hf
            · exact absurd ⟨hN, hf⟩ hg
            · revert hf; cases health i <;> simp
          simp [healthEvts, hN, hhi] at he
          simp [he]
      dsimp
      split_ifs with htr
      · intro hmem
        exfalso
        rcases List.mem_append.mp hmem with h | h
        · exact hpre _ h rfl
        · simp at h
      · intro hmem
        have hrest : Event.health false ∈ (run_sqlLoop mode health att r (i + 1)).trace := by
          rcases List.mem_append.mp hmem with h | h
          · rcases List.mem_append.mp h with h2 | h2
            · exact absurd rfl (hpre _ h2)
            · simp at h2
          · exact h
        obtain ⟨ho, hc, hl⟩ := ih (i + 1) hrest
        refine ⟨ho, hc, ?_⟩
        dsimp
        rw [List.getLast?_append, hl]
        rfl

/-- A stopped or never-spawned handle is never running after `stopProc`,
and an already-stopped handle is left untouched with no action. -/
theorem stopProc_not_running (name : String) (p : ProcHandle) (g : Bool) :
    (stopProc name p g).1 ≠ some true := by
  rcases p with _ | b
  · simp [stopProc]
  · rcases b <;> simp [stopProc]

/-- `cleanup_tiup` skips a handle that is not running. -/
theorem stopProc_stopped (name : String) (p : ProcHandle) (g : Bool)
    (h : p ≠ some true) : stopProc name p g = (p, []) := by
  rcases p with _ | b
  · rfl
  · rcases b
    · rfl
    · exact absurd rfl h

/-! ## Claims -/

/-- C1: for every unit whose `.expected` artifact exists (and that reaches
the primary script, i.e. setup and load did not fail), the classifier
returns PASSED iff the stripped captured output equals the stripped
expected contents, and otherwise returns FAILED with
"output differs from expected" — regardless of error markers in the
output, since the expected-file branch is taken before the error scan. -/
theorem expected_file_overrides (u : TestUnit) (e : String)
    (hs : ∀ so, u.setupOutput = some so →
      (containsStr so "ERROR:" || containsStr so "FATAL:") = false)
    (hl : ∀ rc, u.loadRC = some rc → rc = 0)
    (he : u.expected = some e) :
    ((run_sql_test_file u).result = TestResult.PASSED ↔ pyStrip u.output = pyStrip e)
    ∧ (pyStrip u.output ≠ pyStrip e →
        (run_sql_test_file u).result = TestResult.FAILED ∧
        (run_sql_test_file u).detail = "output differs from expected") := by
  obtain ⟨steps, hrun⟩ := reaches_classify u hs hl
  rw [hrun, classifyOutput_expected u steps e he]
  by_cases hx : pyStrip u.output = pyStrip e
  · simp [hx]
  · simp [hx]

/-- Witness for C1: a unit whose output contains an error marker but
matches its `.expected` file is PASSED — the expected-output comparison
overrides the error-marker heuristic. -/
theorem expected_file_overrides_witness :
    hasError "ERROR: x\n" = true ∧
    (run_sql_test_file ⟨none, none, "ERROR: x\n", some "ERROR: x", none⟩).result
      = TestResult.PASSED :=
  ⟨by decide,
   (expected_file_overrides ⟨none, none, "ERROR: x\n", some "ERROR: x", none⟩ "ERROR: x"
      (fun _ h => Option.noConfusion h) (fun _ h => Option.noConfusion h) rfl).1.mpr
     (by decide)⟩

/-- C2 (counterexample): the inventory scenario's invariant check accepts
a remaining quantity of 150, which exceeds the initial stock of 100 — the
upper bound claimed by the spec is not checked by the code
(`assert remaining >= 0` only). -/
theorem inventory_check_ignores_upper_bound :
    test_concurrent_inventory_reservation.initialQuantity = 100 ∧
    test_concurrent_inventory_reservation.check 150 = true ∧
    ¬((150 : Int) ≤ test_concurrent_inventory_reservation.initialQuantity) := by
  decide

/-- C2 (amended): the inventory scenario seeds 100, submits ten
reservations of 15 through a pool of ten workers, each guarded by
`SELECT ... FOR UPDATE`, and its invariant check verifies only the lower
bound: it passes exactly when the remaining quantity is non-negative. -/
theorem inventory_check_lower_bound_only :
    test_concurrent_inventory_reservation.initialQuantity = 100 ∧
    test_concurrent_inventory_reservation.reservationAmount = 15 ∧
    test_concurrent_inventory_reservation.numReservations = 10 ∧
    test_concurrent_inventory_reservation.maxWorkers = 10 ∧
    containsStr test_concurrent_inventory_reservation.reserveScript "FOR UPDATE" = true ∧
    ∀ q : Int, test_concurrent_inventory_reservation.check q = true ↔ 0 ≤ q := by
  refine ⟨rfl, rfl, rfl, rfl, by decide, fun q => ?_⟩
  simp [test_concurrent_inventory_reservation]

/-- Witness for C2 (amended): the check accepts the quantity 0. -/
theorem inventory_check_lower_bound_only_witness :
    test_concurrent_inventory_reservation.check 0 = true :=
  (inventory_check_lower_bound_only.2.2.2.2.2 0).mpr (by decide)

/-- C3 (counterexample): when every attempt's output is transient and the
last attempt's observed exit code is 0, `run_sql` still returns exit code
1 — the code hard-codes `return output, 1` after the loop instead of
returning the last observed exit code. -/
theorem exhausted_budget_returns_code_one :
    isTransient "psql: connection refused" = true ∧
    (run_sql SetupMode.NONE (fun _ => true)
        (fun _ => ("psql: connection refused", (0 : Int))) defaultRetries).output
      = "psql: connection refused" ∧
    (run_sql SetupMode.NONE (fun _ => true)
        (fun _ => ("psql: connection refused", (0 : Int))) defaultRetries).code = 1 ∧
    (1 : Int) ≠ (0 : Int) := by
  decide

/-- C3 (amended): with a healthy cluster and every attempt transient, the
client makes exactly 3 attempts (1 + the default budget of 2 retries)
with a 2-second backoff between consecutive attempts, and returns the
output observed on the last attempt together with exit code 1. -/
theorem transient_budget_exhausted (mode : SetupMode) (health : Nat → Bool)
    (att : Nat → String × Int)
    (hh : ∀ i, health i = true)
    (ht : ∀ i, i ≤ defaultRetries → isTransient (att i).1 = true) :
    run_sql mode health att defaultRetries =
      ⟨(att defaultRetries).1, 1,
        healthEvts mode health 0 ++ [Event.attempt 0, Event.backoff 2] ++
        healthEvts mode health 1 ++ [Event.attempt 1, Event.backoff 2] ++
        healthEvts mode health 2 ++ [Event.attempt 2]⟩ := by
  have h0 := ht 0 (by decide)
  have h1 := ht 1 (by decide)
  have h2 := ht 2 (by decide)
  simp only [run_sql, defaultRetries]
  simp [run_sqlLoop, healthEvts, hh, h0, h1, h2]

/-- Witness for C3 (amended): all three attempts transient in tiup mode. -/
theorem transient_budget_exhausted_witness :
    run_sql SetupMode.tiup (fun _ => true)
      (fun _ => ("psql: connection refused", (2 : Int))) defaultRetries =
      ⟨"psql: connection refused", 1,
        [Event.health true, Event.attempt 0, Event.backoff 2,
         Event.health true, Event.attempt 1, Event.backoff 2,
         Event.health true, Event.attempt 2]⟩ := by
  have h := transient_budget_exhausted SetupMode.tiup (fun _ => true)
      (fun _ => ("psql: connection refused", (2 : Int)))
      (fun _ => rfl) (fun i _ => show isTransient "psql: connection refused" = true by decide)
  simpa [healthEvts] using h

/-- C4 (counterexample): a setup output containing the lowercase marker
"error:" — one of the classifier's own error patterns — does not produce
Failed("setup failed"); the unit proceeds and the primary script runs.
The setup check only looks for the case-sensitive "ERROR:"/"FATAL:". -/
theorem setup_lowercase_marker_not_checked :
    ("error:" ∈ error_patterns) ∧
    hasError "psql: error: connection to server failed" = true ∧
    (run_sql_test_file
        ⟨some "psql: error: connection to server failed", none, "ok", none, none⟩).detail
      ≠ "setup failed" ∧
    Step.primary ∈
      (run_sql_test_file
        ⟨some "psql: error: connection to server failed", none, "ok", none, none⟩).steps := by
  decide

/-- C4 (amended): for every unit with a setup script whose output contains
"ERROR:" or "FATAL:" (case-sensitive — the only markers the setup step
checks), the outcome is Failed("setup failed") and no later step (load
script, primary script, comparison) is executed. -/
theorem setup_marker_fails (u : TestUnit) (so : String)
    (hso : u.setupOutput = some so)
    (hm : (containsStr so "ERROR:" || containsStr so "FATAL:") = true) :
    run_sql_test_file u = ⟨TestResult.FAILED, "setup failed", [Step.setup]⟩ := by
  unfold run_sql_test_file
  rw [hso]
  simp [hm]

/-- Witness for C4 (amended). -/
theorem setup_marker_fails_witness :
    run_sql_test_file ⟨some "ERROR: relation exists", none, "", none, none⟩ =
      ⟨TestResult.FAILED, "setup failed", [Step.setup]⟩ :=
  setup_marker_fails ⟨some "ERROR: relation exists", none, "", none, none⟩
    "ERROR: relation exists" rfl (by decide)

/-- C5: with a healthy cluster, a transient first attempt followed by a
non-transient second attempt yields exactly one retry and exactly the
second attempt's output and exit code; a non-transient first attempt is
returned immediately with zero retries. The full traces show exactly two
(resp. one) psql attempts. -/
theorem retry_once_then_return (mode : SetupMode) (health : Nat → Bool)
    (att : Nat → String × Int) (hh : ∀ i, health i = true) :
    (isTransient (att 0).1 = true → isTransient (att 1).1 = false →
      run_sql mode health att defaultRetries =
        ⟨(att 1).1, (att 1).2,
          healthEvts mode health 0 ++ [Event.attempt 0, Event.backoff 2] ++
          healthEvts mode health 1 ++ [Event.attempt 1]⟩)
    ∧ (isTransient (att 0).1 = false →
        run_sql mode health att defaultRetries =
          ⟨(att 0).1, (att 0).2, healthEvts mode health 0 ++ [Event.attempt 0]⟩) := by
  constructor
  · intro h0 h1
    simp only [run_sql, defaultRetries]
    simp [run_sqlLoop, healthEvts, hh, h0, h1]
  · intro h0
    simp only [run_sql, defaultRetries]
    simp [run_sqlLoop, healthEvts, hh, h0]

/-- Witness for C5: connection refused once, then success. -/
theorem retry_once_then_return_witness :
    run_sql SetupMode.docker (fun _ => true)
      (fun i => if i = 0 then ("connection refused", (2 : Int)) else (" ok\n", (0 : Int)))
      defaultRetries =
      ⟨" ok\n", 0,
        [Event.health true, Event.attempt 0, Event.backoff 2,
         Event.health true, Event.attempt 1]⟩ := by
  have h := (retry_once_then_return SetupMode.docker (fun _ => true)
      (fun i => if i = 0 then ("connection refused", (2 : Int)) else (" ok\n", (0 : Int)))
      (fun _ => rfl)).1 (by decide) (by decide)
  simpa [healthEvts] using h

/-- C6 (counterexample): with `--no-setup` (SetupMode NONE) the health
check is short-circuited away: the trace of a `run_sql` call contains a
psql attempt with no preceding health check at all, even though the
health oracle would report unhealthy. -/
theorem no_setup_skips_health_check :
    (run_sql SetupMode.NONE (fun _ => false) (fun _ => ("ok", (0 : Int))) defaultRetries).trace
      = [Event.attempt 0] ∧
    healthBeforeAttempts none
      (run_sql SetupMode.NONE (fun _ => false) (fun _ => ("ok", (0 : Int))) defaultRetries).trace
      = false := by
  decide

/-- C6 (amended): in the managed setup modes (docker or tiup, i.e. any
mode other than NONE), a cluster-health check happens before every psql
attempt, and whenever a health check reports unhealthy the client returns
the Cluster-Unhealthy error immediately: the failing check is the last
event of the trace, so no attempt and no retry follows it. -/
theorem health_check_guards_attempts (mode : SetupMode) (health : Nat → Bool)
    (att : Nat → String × Int) (retries : Nat) (hm : mode ≠ SetupMode.NONE) :
    healthBeforeAttempts none (run_sql mode health att retries).trace = true ∧
    (Event.health false ∈ (run_sql mode health att retries).trace →
      (run_sql mode health att retries).output = "ERROR: Cluster unhealthy" ∧
      (run_sql mode health att retries).code = 1 ∧
      (run_sql mode health att retries).trace.getLast? = some (Event.health false)) :=
  ⟨run_sqlLoop_healthBefore mode health att hm retries 0 none,
   run_sqlLoop_unhealthy_stops mode health att retries 0⟩

/-- Witness for C6 (amended): tiup mode with a dead cluster. -/
theorem health_check_guards_attempts_witness :
    healthBeforeAttempts none
      (run_sql SetupMode.tiup (fun _ => false) (fun _ => ("ok", (0 : Int))) defaultRetries).trace
      = true ∧
    (Event.health false ∈
        (run_sql SetupMode.tiup (fun _ => false) (fun _ => ("ok", (0 : Int))) defaultRetries).trace →
      (run_sql SetupMode.tiup (fun _ => false) (fun _ => ("ok", (0 : Int))) defaultRetries).output
          = "ERROR: Cluster unhealthy" ∧
      (run_sql SetupMode.tiup (fun _ => false) (fun _ => ("ok", (0 : Int))) defaultRetries).code = 1 ∧
      (run_sql SetupMode.tiup (fun _ => false) (fun _ => ("ok", (0 : Int)))
          defaultRetries).trace.getLast?
          = some (Event.health false)) :=
  health_check_guards_attempts SetupMode.tiup (fun _ => false) (fun _ => ("ok", (0 : Int)))
    defaultRetries (by decide)

/-- C7: for every unit without an `.expected` artifact (that reaches the
primary script), the outcome is PASSED iff no output line contains an
error marker, or an `.errors` artifact exists and every error line
contains some non-empty allowed entry as a substring; any unmatched error
line yields Failed("unexpected SQL errors"), and errors without an
`.errors` file yield Failed("SQL errors detected"). -/
theorem no_expected_error_scan (u : TestUnit)
    (hs : ∀ so, u.setupOutput = some so →
      (containsStr so "ERROR:" || containsStr so "FATAL:") = false)
    (hl : ∀ rc, u.loadRC = some rc → rc = 0)
    (he : u.expected = none) :
    ((run_sql_test_file u).result = TestResult.PASSED ↔
      (hasError u.output = false ∨
        ∃ ef, u.errorsFile = some ef ∧
          ∀ line ∈ errorLines u.output, ∃ entry ∈ allowedEntries ef, containsStr line entry = true))
    ∧ (∀ ef, u.errorsFile = some ef → hasError u.output = true →
        unexpectedErrors u.output ef ≠ [] →
        (run_sql_test_file u).result = TestResult.FAILED ∧
        (run_sql_test_file u).detail = "unexpected SQL errors")
    ∧ (u.errorsFile = none → hasError u.output = true →
        (run_sql_test_file u).result = TestResult.FAILED ∧
        (run_sql_test_file u).detail = "SQL errors detected") := by
  obtain ⟨steps, hrun⟩ := reaches_classify u hs hl
  rw [hrun]
  unfold classifyOutput
  rw [he]
  rcases hef : u.errorsFile with _ | ef
  · by_cases hhe : hasError u.output = true
    · simp [hhe]
    · simp at hhe
      simp [hhe]
  · by_cases hhe : hasError u.output = true
    · by_cases hun : unexpectedErrors u.output ef = []
      · have hun2 := hun
        rw [unexpectedErrors_eq_nil_iff] at hun2
        simp only [hhe, hun, if_true, if_pos]
        simp
        exact ⟨hun2, hun⟩
      · have hun2 := hun
        rw [unexpectedErrors_eq_nil_iff] at hun2
        simp [hhe, hun, hun2]
    · simp at hhe
      simp [hhe]

/-- Witness for C7: an error line matched by an allowed entry passes. -/
theorem no_expected_error_scan_witness :
    (run_sql_test_file
        ⟨none, none, "ok\nERROR: duplicate key\n", none, some " duplicate key \n"⟩).result
      = TestResult.PASSED :=
  (no_expected_error_scan
      ⟨none, none, "ok\nERROR: duplicate key\n", none, some " duplicate key \n"⟩
      (fun _ h => Option.noConfusion h) (fun _ h => Option.noConfusion h) rfl).1.mpr
    (Or.inr ⟨" duplicate key \n", rfl, by decide⟩)

/-- C8 (counterexample): the ten-increment sequential counter scenario
takes no explicit row lock (its script has no `FOR UPDATE`), while the
explicit-row-locking scenario performs five increments and its invariant
check rejects 10 — no scenario applies ten increments under explicit
row-level locking asserting a final value of 10. -/
theorem counter_scenarios_mismatch :
    containsStr test_sequential_counter_increment.incrementScript "FOR UPDATE" = false ∧
    test_sequential_counter_increment.numIncrements = 10 ∧
    test_for_update_locking.numIncrements = 5 ∧
    containsStr test_for_update_locking.incrementScript "FOR UPDATE" = true ∧
    test_for_update_locking.check 10 = false := by
  decide

/-- C8 (amended): the sequential counter scenario seeds 0 and applies ten
increments one at a time with plain UPDATE transactions (serialized by
sequential execution, not by explicit row locking), asserting a final
value of exactly 10; the explicit-row-locking scenario seeds 0 and
applies five `FOR UPDATE`-guarded increments, asserting exactly 5. In
both, the check holds exactly when the final value equals the number of
increments. -/
theorem counter_checks_count_increments :
    test_sequential_counter_increment.seedValue = 0 ∧
    test_sequential_counter_increment.numIncrements = 10 ∧
    containsStr test_sequential_counter_increment.incrementScript "FOR UPDATE" = false ∧
    (∀ v : Int, test_sequential_counter_increment.check v = true ↔
      v = (test_sequential_counter_increment.numIncrements : Int)) ∧
    test_for_update_locking.seedValue = 0 ∧
    test_for_update_locking.numIncrements = 5 ∧
    containsStr test_for_update_locking.incrementScript "FOR UPDATE" = true ∧
    (∀ v : Int, test_for_update_locking.check v = true ↔
      v = (test_for_update_locking.numIncrements : Int)) := by
  refine ⟨rfl, rfl, by decide, fun v => ?_, rfl, rfl, by decide, fun v => ?_⟩
  · simp [test_sequential_counter_increment]
  · simp [test_for_update_locking]

/-- Witness for C8 (amended): the sequential check accepts exactly 10. -/
theorem counter_checks_count_increments_witness :
    test_sequential_counter_increment.check 10 = true :=
  (counter_checks_count_increments.2.2.2.1 10).mpr (by decide)

/-- C9: invoking the teardown path twice is equivalent to invoking it
once: after the first cleanup no tracked process is running, and the
second cleanup leaves the state unchanged and performs no termination of
any (already stopped) handle. The hypothesis records that tracked handles
are only ever spawned in tiup mode. -/
theorem teardown_idempotent (mode : SetupMode) (pm : ProcessManager)
    (g1 g2 g1' g2' : Bool)
    (hd : mode ≠ SetupMode.tiup → pm.playground_proc = none ∧ pm.pgtikv_proc = none) :
    noTrackedRunning (cleanup mode false pm g1 g2).1 ∧
    (cleanup mode false (cleanup mode false pm g1 g2).1 g1' g2').1 =
      (cleanup mode false pm g1 g2).1 ∧
    ((cleanup mode false (cleanup mode false pm g1 g2).1 g1' g2').2.filter
        isHandleTermination) = [] := by
  rcases mode with _ | _ | _
  · obtain ⟨h1, h2⟩ := hd (by simp)
    simp [cleanup, noTrackedRunning, h1, h2, isHandleTermination]
  · have hpl := stopProc_not_running "tiup playground" pm.playground_proc g2
    have hpg := stopProc_not_running "pg-tikv" pm.pgtikv_proc g1
    have hfirst : noTrackedRunning (cleanup SetupMode.tiup false pm g1 g2).1 := by
      simp only [cleanup, cleanup_tiup, noTrackedRunning]
      exact ⟨hpl, hpg⟩
    refine ⟨hfirst, ?_, ?_⟩
    · simp only [cleanup, cleanup_tiup]
      dsimp
      rw [stopProc_stopped _ _ _ hpg, stopProc_stopped _ _ _ hpl]
    · simp only [cleanup, cleanup_tiup]
      dsimp
      rw [stopProc_stopped _ _ _ hpg, stopProc_stopped _ _ _ hpl]
      simp [isHandleTermination]
  · obtain ⟨h1, h2⟩ := hd (by simp)
    simp [cleanup, noTrackedRunning, h1, h2, isHandleTermination]

/-- Witness for C9: both tracked processes running in tiup mode. -/
theorem teardown_idempotent_witness :
    noTrackedRunning
      (cleanup SetupMode.tiup false ⟨some true, some true⟩ true true).1 ∧
    (cleanup SetupMode.tiup false
        (cleanup SetupMode.tiup false ⟨some true, some true⟩ true true).1 true true).1 =
      (cleanup SetupMode.tiup false ⟨some true, some true⟩ true true).1 ∧
    ((cleanup SetupMode.tiup false
        (cleanup SetupMode.tiup false ⟨some true, some true⟩ true true).1 true true).2.filter
        isHandleTermination) = [] :=
  teardown_idempotent SetupMode.tiup ⟨some true, some true⟩ true true true true
    (fun h => absurd rfl h)

/-- C10: the SKIPPED and ERROR outcome variants are unreachable — the
classifier returns only PASSED or FAILED, both test loops leave the
skipped and errors counters at zero, and the final exit status is
therefore determined by the failed count alone. -/
theorem outcome_variants_unreachable :
    (∀ u, (run_sql_test_file u).result = TestResult.PASSED ∨
          (run_sql_test_file u).result = TestResult.FAILED)
    ∧ (∀ (stop : Bool) (units : List TestUnit),
        (run_external_tests stop units).skipped = 0 ∧
        (run_external_tests stop units).errors = 0 ∧
        mainExit (run_external_tests stop units) =
          (if (run_external_tests stop units).failed = 0 then 0 else 1))
    ∧ (∀ (stop : Bool) (outcomes : List FuncOutcome),
        (run_builtin_tests stop outcomes).skipped = 0 ∧
        (run_builtin_tests stop outcomes).errors = 0 ∧
        mainExit (run_builtin_tests stop outcomes) =
          (if (run_builtin_tests stop outcomes).failed = 0 then 0 else 1)) := by
  refine ⟨classify_pass_or_fail, fun stop units => ?_, fun stop os => ?_⟩
  · have h := runExternalLoop_skipped_errors stop units initialStats
    have h2 : (runExternalLoop stop initialStats units).errors = 0 := h.2
    exact ⟨h.1, h.2, by simp [mainExit, run_external_tests, h2]⟩
  · have h := runBuiltinLoop_skipped_errors stop os initialStats
    have h2 : (runBuiltinLoop stop initialStats os).errors = 0 := h.2
    exact ⟨h.1, h.2, by simp [mainExit, run_builtin_tests, h2]⟩

end PgTikv
